import Mathlib

/-!
# Verification of the Scan Screen Controller (finance-manager-mobile-app)

Shallow embedding of `src/App.tsx`: a single React Native screen that scans a
QR code, posts the decoded URL to a backend, and renders the returned invoice.

The screen's mutable state (the six `useState` hooks) is embedded as the
structure `ScreenState`; the event handlers (`handleBarcodeScanned`,
`fetchNFCe`, the two button `onPress` closures, and the permission effect)
become pure state-transition functions; the JSX render becomes a pure function
from `ScreenState` to a `ViewMode` value.

JavaScript numbers carried by the backend's invoice JSON are modelled as `ℚ`;
`Number.prototype.toFixed(2)` is modelled by `toFixed2` (round to the nearest
cent, then print with exactly two decimal digits), covering the ordinary
non-exponential range in which currency amounts live.
-/

/-- One line item of the invoice JSON returned by the backend
(`InvoiceItem` in App.tsx, lines 14-19). -/
structure InvoiceItem where
  descricao : String
  quantidade : ℚ
  valor_unitario : ℚ
  valor_total : ℚ
deriving DecidableEq

/-- The invoice JSON returned by the backend (`Invoice` in App.tsx,
lines 21-27). -/
structure Invoice where
  loja : String
  cnpj : String
  data_emissao : String
  total : ℚ
  itens : List InvoiceItem
deriving DecidableEq

/-- The screen's mutable state: the six `useState` hooks of `App`
(App.tsx lines 30-36).  `hasPermission = none` is the initial `null`
(the spec's `cameraAuthorized = unknown`); `some true` / `some false`
are granted / denied. -/
structure ScreenState where
  hasPermission : Option Bool
  isScanning : Bool
  rawUrl : Option String
  invoice : Option Invoice
  loading : Bool
  error : Option String
deriving DecidableEq

/-- The initial state of the screen on mount: every hook's initializer
(App.tsx lines 30-36). -/
def initialState : ScreenState :=
  { hasPermission := none, isScanning := false, rawUrl := none,
    invoice := none, loading := false, error := none }

/-- The generic processing-failure message set on a non-success HTTP status
(App.tsx line 70). -/
def processingErrorMsg : String := "Não foi possível processar a nota. Tente novamente."

/-- The generic connection-failure message set in the `catch` clause
(App.tsx line 79). -/
def connectionErrorMsg : String := "Erro de conexão com o servidor."

/-- The possible outcomes of the `fetch` round-trip inside `fetchNFCe`
(App.tsx lines 61-76), as observed by the `try`/`catch` block:

* `transportFailure` — the `fetch` promise itself rejects (request never
  completes);
* `httpError body` — a response arrives with `res.ok = false`; `body` is
  the text read for logging;
* `httpSuccess (some inv)` — a response arrives with `res.ok = true` and
  `res.json()` resolves to the invoice `inv`;
* `httpSuccess none` — a response arrives with `res.ok = true` but the body
  is not valid JSON, so `await res.json()` throws (landing in the same
  `catch` clause as a transport failure). -/
inductive FetchOutcome where
  | transportFailure : FetchOutcome
  | httpError (body : String) : FetchOutcome
  | httpSuccess (parsed : Option Invoice) : FetchOutcome
deriving DecidableEq

/-- An outcome is a success when `fetchNFCe` reaches `setInvoice(data)`:
the response is 2xx and its body parsed as JSON. -/
def FetchOutcome.isSuccess : FetchOutcome → Bool
  | .httpSuccess (some _) => true
  | _ => false

/-- An outcome in which the HTTP request completed, i.e. a response
(status and body) was received — everything except a transport failure. -/
def FetchOutcome.requestCompleted : FetchOutcome → Bool
  | .transportFailure => false
  | _ => true

/-- The state mutations `fetchNFCe` performs before issuing the request:
`setLoading(true); setError(null); setInvoice(null)` (App.tsx lines 57-59).
The HTTP POST is issued with the screen in this state. -/
def fetchStart (s : ScreenState) : ScreenState :=
  { s with loading := true, error := none, invoice := none }

/-- The state mutation performed once the outcome of the request is known
(App.tsx lines 67-79): non-ok status sets the processing message and
returns; a parsed body sets the invoice; a rejection of `fetch` or of
`res.json()` is caught and sets the connection message. -/
def fetchSettle (s : ScreenState) : FetchOutcome → ScreenState
  | .transportFailure => { s with error := some connectionErrorMsg }
  | .httpError _ => { s with error := some processingErrorMsg }
  | .httpSuccess none => { s with error := some connectionErrorMsg }
  | .httpSuccess (some inv) => { s with invoice := some inv }

/-- The complete effect of one `fetchNFCe` call on the screen state, given
the outcome of its single HTTP round-trip: the start mutations, the
outcome-dependent mutation, and the `finally` clause's `setLoading(false)`
(App.tsx lines 55-83). -/
def fetchNFCe (s : ScreenState) (o : FetchOutcome) : ScreenState :=
  { fetchSettle (fetchStart s) o with loading := false }

/-- The decode-event handler `handleBarcodeScanned` (App.tsx lines 48-53):
it stops scanning, stores the decoded text verbatim in `rawUrl`, and calls
`fetchNFCe` with that same text.  The fetch itself is asynchronous, so the
handler's immediate effect is the state update; the returned list records
the URLs with which `fetchNFCe` is invoked (here exactly one). -/
def handleBarcodeScanned (s : ScreenState) (data : String) : ScreenState × List String :=
  ({ s with isScanning := false, rawUrl := some data }, [data])

/-- One scan session: the camera viewfinder is mounted only while
`isScanning` is true (App.tsx line 120), so a decode event is delivered to
`handleBarcodeScanned` only in a scanning state; once the handler sets
`isScanning := false` the viewfinder unmounts and the remaining events of
the session are not delivered.  `scanSession s events` folds a sequence of
decode events over the state under this delivery rule, accumulating the
list of fetch invocations. -/
def scanSession : ScreenState → List String → ScreenState × List String
  | s, [] => (s, [])
  | s, d :: es =>
    if s.isScanning then
      let h := handleBarcodeScanned s d
      let rest := scanSession h.1 es
      (rest.1, h.2 ++ rest.2)
    else scanSession s es

/-- The `onPress` closure of the "Escanear Nota" button (App.tsx line 115). -/
def pressStartScan (s : ScreenState) : ScreenState :=
  { s with isScanning := true }

/-- The `onPress` closure of the "Cancelar leitura" button (App.tsx line 113). -/
def pressCancelScan (s : ScreenState) : ScreenState :=
  { s with isScanning := false }

/-- The permission effect's continuation (App.tsx lines 41-46): once the
platform answers with a status string, `setHasPermission(status === "granted")`
runs. -/
def applyPermissionResult (s : ScreenState) (status : String) : ScreenState :=
  { s with hasPermission := some (status == "granted") }

/-- A state in which scanning is active and no fetch has ever started:
reachable by pressing "Escanear Nota" right after the permission grant. -/
def scanningNoFetchState : ScreenState :=
  { hasPermission := some true, isScanning := true, rawUrl := none,
    invoice := none, loading := false, error := none }

/-- The two digits after the decimal point for a cent count `n` (taken
modulo 100): tens digit then units digit. -/
def twoDigitString (n : Nat) : String :=
  ⟨[Nat.digitChar (n / 10 % 10), Nat.digitChar (n % 10)]⟩

/-- Model of `Number.prototype.toFixed(2)` as used on invoice amounts
(App.tsx lines 161, 174, 178): round the amount to the nearest cent and
print it with exactly two digits after the decimal point. -/
def toFixed2 (q : ℚ) : String :=
  let cents : ℤ := round (q * 100)
  let a : ℕ := cents.natAbs
  (if cents < 0 then "-" else "") ++ toString (a / 100) ++ "." ++ twoDigitString (a % 100)

/-- Every currency string the result view renders for an invoice, in
display order: the grand total (App.tsx line 161), then for each item its
unit value (line 174) and its line total (line 178), each with the
hardcoded "R$ " prefix. -/
def currencyStrings (inv : Invoice) : List String :=
  ("R$ " ++ toFixed2 inv.total) ::
    inv.itens.flatMap (fun it =>
      ["R$ " ++ toFixed2 it.valor_unitario, "R$ " ++ toFixed2 it.valor_total])

/-- A status box rendered in the main screen's status area. -/
inductive StatusContent where
  | loadingIndicator : StatusContent
  | errorBanner (msg : String) : StatusContent
  | invoiceCard (inv : Invoice) (rawUrl : Option String) : StatusContent
  | emptyPlaceholder : StatusContent
deriving DecidableEq

/-- The view the component returns. `main` carries the scan-control button
label, whether the viewfinder is mounted, and the list of status boxes the
four independent JSX conditionals produce. -/
inductive ViewMode where
  | permissionPending : ViewMode
  | permissionDenied : ViewMode
  | main (buttonLabel : String) (viewfinder : Bool) (statusBoxes : List StatusContent) : ViewMode
deriving DecidableEq

/-- The scan-control button label (App.tsx lines 112-116). -/
def scanButtonLabel (s : ScreenState) : String :=
  if s.isScanning then "Cancelar leitura" else "Escanear Nota"

/-- The status boxes produced by the four independent JSX conditionals of
the main screen, in source order (App.tsx lines 132-203):
`loading && …`, `error && !loading && …`, `!loading && !error && invoice && …`
(the result view, which also embeds the raw decoded URL, line 183), and
`!loading && !error && !invoice && !isScanning && …`. -/
def renderedBoxes (s : ScreenState) : List StatusContent :=
  (if s.loading then [StatusContent.loadingIndicator] else [])
  ++ (match s.error with
      | some m => if s.loading then [] else [StatusContent.errorBanner m]
      | none => [])
  ++ (match s.invoice with
      | some inv =>
        if !s.loading && s.error.isNone then [StatusContent.invoiceCard inv s.rawUrl] else []
      | none => [])
  ++ (if !s.loading && s.error.isNone && s.invoice.isNone && !s.isScanning then
        [StatusContent.emptyPlaceholder] else [])

/-- The render function of `App` (App.tsx lines 85-205): the two early
returns on `hasPermission`, then the main screen. -/
def render (s : ScreenState) : ViewMode :=
  match s.hasPermission with
  | none => ViewMode.permissionPending
  | some false => ViewMode.permissionDenied
  | some true => ViewMode.main (scanButtonLabel s) s.isScanning (renderedBoxes s)

/-- The status-area selection exactly as the spec words it (§4.4), as a
priority cascade: loading first, then the error banner, then the invoice
card, then — only when not scanning — the empty-state placeholder.  Stated
from the spec to be compared against the code's `renderedBoxes`. -/
def statusAreaSpec (s : ScreenState) : Option StatusContent :=
  if s.loading then some StatusContent.loadingIndicator
  else
    match s.error with
    | some m => some (StatusContent.errorBanner m)
    | none =>
      match s.invoice with
      | some inv => some (StatusContent.invoiceCard inv s.rawUrl)
      | none => if s.isScanning then none else some StatusContent.emptyPlaceholder

/-- C2: after any completed `fetchNFCe` call, `invoice` and `error` are never
both populated; `invoice` is set exactly on a successful outcome and `error`
exactly on a failure outcome. -/
theorem fetch_result_fields_exclusive (s : ScreenState) (o : FetchOutcome) :
    ((fetchNFCe s o).invoice.isSome && (fetchNFCe s o).error.isSome) = false
    ∧ (fetchNFCe s o).invoice.isSome = o.isSuccess
    ∧ (fetchNFCe s o).error.isSome = !o.isSuccess := by
  rcases o with _ | b | p
  · exact ⟨rfl, rfl, rfl⟩
  · exact ⟨rfl, rfl, rfl⟩
  · rcases p with _ | inv <;> exact ⟨rfl, rfl, rfl⟩

/-- C3: every `fetchNFCe` call first sets `loading := true` and clears both
`invoice` and `error` (the request is issued on `fetchStart s`), on every
outcome it ends with `loading = false`, and its result is independent of the
`invoice`, `error` and `loading` fields it started from. -/
theorem fetch_sets_and_clears_flags (s : ScreenState) (o : FetchOutcome) :
    (fetchStart s).loading = true
    ∧ (fetchStart s).invoice = none
    ∧ (fetchStart s).error = none
    ∧ fetchNFCe s o = { fetchSettle (fetchStart s) o with loading := false }
    ∧ (fetchNFCe s o).loading = false
    ∧ ∀ (inv : Option Invoice) (err : Option String) (b : Bool),
        fetchNFCe { s with invoice := inv, error := err, loading := b } o = fetchNFCe s o := by
  refine ⟨rfl, rfl, rfl, rfl, ?_, ?_⟩
  · rcases o with _ | b | _ | inv <;> rfl
  · intro inv err b
    rcases o with _ | b2 | _ | inv2 <;> rfl

/-- C6: a fetch that completes with a non-success HTTP status sets `error` to
the generic processing-failure message and leaves `invoice` empty, and the
resulting state does not depend on the response body (which is only logged,
never shown). -/
theorem http_error_sets_processing_message (s : ScreenState) (body : String) :
    (fetchNFCe s (FetchOutcome.httpError body)).error = some processingErrorMsg
    ∧ (fetchNFCe s (FetchOutcome.httpError body)).invoice = none
    ∧ ∀ body2 : String,
        fetchNFCe s (FetchOutcome.httpError body) = fetchNFCe s (FetchOutcome.httpError body2) :=
  ⟨rfl, rfl, fun _ => rfl⟩

/-- C7 (amended): the connection-failure message is produced by every
transport failure, and also by a completed 2xx response whose body fails to
parse as JSON (`res.json()` throws into the same `catch`); a completed
non-success response produces the distinct processing-failure message, and a
completed, parsed success produces no error. -/
theorem fetch_error_message_by_outcome (s : ScreenState) (body : String) (inv : Invoice) :
    (fetchNFCe s FetchOutcome.transportFailure).error = some connectionErrorMsg
    ∧ (fetchNFCe s (FetchOutcome.httpError body)).error = some processingErrorMsg
    ∧ (fetchNFCe s (FetchOutcome.httpSuccess none)).error = some connectionErrorMsg
    ∧ (fetchNFCe s (FetchOutcome.httpSuccess (some inv))).error = none
    ∧ (connectionErrorMsg == processingErrorMsg) = false :=
  ⟨rfl, rfl, rfl, rfl, by decide⟩

/-- C7 counterexample: an outcome whose HTTP request completed (a 2xx
response with a body that is not valid JSON) still sets `error` to the
connection-failure message, contradicting the claim that no completed
request produces that message. -/
theorem completed_request_connection_message :
    FetchOutcome.requestCompleted (FetchOutcome.httpSuccess none) = true
    ∧ (fetchNFCe initialState (FetchOutcome.httpSuccess none)).error = some connectionErrorMsg :=
  ⟨rfl, rfl⟩

/-- C9: pressing "Escanear Nota" or "Cancelar leitura" only toggles
`isScanning`; `invoice`, `error`, `rawUrl`, `loading` and `hasPermission`
are all unchanged by either button. -/
theorem scan_buttons_only_toggle_scanning (s : ScreenState) :
    (pressStartScan s).isScanning = true
    ∧ (pressCancelScan s).isScanning = false
    ∧ (pressStartScan s).invoice = s.invoice
    ∧ (pressStartScan s).error = s.error
    ∧ (pressStartScan s).rawUrl = s.rawUrl
    ∧ (pressStartScan s).loading = s.loading
    ∧ (pressStartScan s).hasPermission = s.hasPermission
    ∧ (pressCancelScan s).invoice = s.invoice
    ∧ (pressCancelScan s).error = s.error
    ∧ (pressCancelScan s).rawUrl = s.rawUrl
    ∧ (pressCancelScan s).loading = s.loading
    ∧ (pressCancelScan s).hasPermission = s.hasPermission :=
  ⟨rfl, rfl, rfl, rfl, rfl, rfl, rfl, rfl, rfl, rfl, rfl, rfl⟩

/-- C10: once the permission request resolves with any platform status
string, `hasPermission` is populated (never back to the unknown state), and
it is `some true` exactly when the status string is `"granted"` — every
other status, undetermined or restricted included, maps to denied. -/
theorem permission_grants_iff_granted (s : ScreenState) (status : String) :
    (applyPermissionResult s status).hasPermission.isSome = true
    ∧ (applyPermissionResult s status).hasPermission = some (status == "granted")
    ∧ ((applyPermissionResult s status).hasPermission = some true ↔ status = "granted")
    ∧ ((applyPermissionResult s status).hasPermission = some false ↔ ¬ status = "granted") := by
  refine ⟨rfl, rfl, ?_, ?_⟩ <;> simp [applyPermissionResult]

/-- Once `isScanning` is false the viewfinder is unmounted, so a session in a
non-scanning state delivers no event and invokes no fetch. -/
theorem scanSession_not_scanning (s : ScreenState) (es : List String)
    (h : s.isScanning = false) : scanSession s es = (s, []) := by
  induction es with
  | nil => rfl
  | cons d es ih => simpa [scanSession, h] using ih

/-- A scan session invokes the fetch at most once, whatever the state and the
event sequence. -/
theorem scanSession_calls_le_one (s : ScreenState) (es : List String) :
    (scanSession s es).2.length ≤ 1 := by
  induction es generalizing s with
  | nil => simp [scanSession]
  | cons d es ih =>
    cases h : s.isScanning
    · simpa [scanSession, h] using ih s
    · have hrest := scanSession_not_scanning { s with isScanning := false, rawUrl := some d } es rfl
      simp [scanSession, h, handleBarcodeScanned, hrest]

/-- C4: a decode event delivered while scanning makes `handleBarcodeScanned`
store the decoded text verbatim in `rawUrl`, set `isScanning` to false, and
invoke the fetch exactly once with that same text; the remaining events of
the session are not processed, and no session ever produces more than one
fetch invocation. -/
theorem decode_event_single_fetch (s : ScreenState) (d : String) (es : List String)
    (h : s.isScanning = true) :
    handleBarcodeScanned s d = ({ s with isScanning := false, rawUrl := some d }, [d])
    ∧ scanSession s (d :: es) = ({ s with isScanning := false, rawUrl := some d }, [d])
    ∧ ∀ (s2 : ScreenState) (es2 : List String), (scanSession s2 es2).2.length ≤ 1 := by
  refine ⟨rfl, ?_, scanSession_calls_le_one⟩
  have hrest := scanSession_not_scanning { s with isScanning := false, rawUrl := some d } es rfl
  simp [scanSession, h, handleBarcodeScanned, hrest]

/-- C4 witness: in a concrete scanning state, the decode event carrying
`"https://example/nfce?x=1"` (followed by a second, ignored event) yields
exactly one fetch invocation with that URL, the verbatim `rawUrl`, and
`isScanning = false`. -/
theorem decode_event_single_fetch_witness :
    scanSession scanningNoFetchState ("https://example/nfce?x=1" :: ["second-decode"])
      = ({ scanningNoFetchState with
            isScanning := false, rawUrl := some "https://example/nfce?x=1" },
         ["https://example/nfce?x=1"]) :=
  (decode_event_single_fetch scanningNoFetchState "https://example/nfce?x=1"
    ["second-decode"] rfl).2.1

/-- C1: the renderer is a pure function of the screen state that follows the
spec's priority order: the unknown permission state yields the
permission-pending view and the denied state yields the permission-denied
view, each regardless of every other field; otherwise the main screen is
rendered and its status boxes are exactly the priority cascade
`statusAreaSpec` (loading first, then error banner, then invoice card, then
the empty placeholder when not scanning). -/
theorem render_matches_priority_order (s : ScreenState) :
    render { s with hasPermission := none } = ViewMode.permissionPending
    ∧ render { s with hasPermission := some false } = ViewMode.permissionDenied
    ∧ render { s with hasPermission := some true }
        = ViewMode.main (scanButtonLabel s) s.isScanning (statusAreaSpec s).toList := by
  refine ⟨rfl, rfl, ?_⟩
  rcases s with ⟨hp, sc, ru, inv, ld, er⟩
  cases ld <;> cases er <;> cases inv <;> cases sc <;>
    simp [render, renderedBoxes, statusAreaSpec, scanButtonLabel]

/-- C5 (amended): the four status-box render conditions are mutually
exclusive — at most one box is rendered in every state — and exactly one is
rendered except in the states where scanning is active with no loading, no
error and no invoice, where none is rendered. -/
theorem status_boxes_at_most_one (s : ScreenState) :
    (renderedBoxes s).length
      = (if !s.loading && s.error.isNone && s.invoice.isNone && s.isScanning then 0 else 1) := by
  rcases s with ⟨hp, sc, ru, inv, ld, er⟩
  cases ld <;> cases er <;> cases inv <;> cases sc <;> simp [renderedBoxes]

/-- C5 counterexample: in the reachable state where the camera is granted,
scanning is active and no fetch has started, the main screen renders none of
the four status contents, refuting joint exhaustiveness. -/
theorem scanning_state_renders_no_status_box :
    scanningNoFetchState.hasPermission = some true
    ∧ scanningNoFetchState.isScanning = true
    ∧ renderedBoxes scanningNoFetchState = [] :=
  ⟨rfl, rfl, rfl⟩

/-- The decimal digit characters produced for a value below ten are digit
characters. -/
theorem digitChar_isDigit (n : Nat) (h : n < 10) : (Nat.digitChar n).isDigit = true := by
  interval_cases n <;> decide

/-- The two-digit cent string always has length two and consists of digit
characters only. -/
theorem twoDigitString_digits (n : Nat) :
    (twoDigitString n).length = 2 ∧ (twoDigitString n).data.all Char.isDigit = true := by
  have h1 := digitChar_isDigit (n / 10 % 10) (Nat.mod_lt _ (by norm_num))
  have h2 := digitChar_isDigit (n % 10) (Nat.mod_lt _ (by norm_num))
  exact ⟨rfl, by simp [twoDigitString, h1, h2]⟩

/-- Every `toFixed2` rendering splits as an integer part, a dot, and exactly
two decimal digits. -/
theorem toFixed2_two_decimals (q : ℚ) :
    ∃ ip dd : String, toFixed2 q = ip ++ "." ++ dd
      ∧ dd.length = 2 ∧ dd.data.all Char.isDigit = true := by
  obtain ⟨hlen, hdig⟩ := twoDigitString_digits ((round (q * 100)).natAbs % 100)
  exact ⟨(if round (q * 100) < 0 then "-" else "")
          ++ toString ((round (q * 100)).natAbs / 100),
        twoDigitString ((round (q * 100)).natAbs % 100),
        by simp [toFixed2, String.append_assoc], hlen, hdig⟩

/-- C8: the example amount 12.5 renders as "12.50", and every currency string
of the result view — the grand total, each item's unit value and each item's
line total — is the hardcoded "R$ " prefix followed by an integer part, a
dot, and exactly two decimal digits. -/
theorem currency_two_decimals :
    toFixed2 (25 / 2) = "12.50"
    ∧ ∀ (inv : Invoice) (str : String), str ∈ currencyStrings inv →
        ∃ ip dd : String, str = "R$ " ++ ip ++ "." ++ dd
          ∧ dd.length = 2 ∧ dd.data.all Char.isDigit = true := by
  constructor
  · have h125 : round ((25 : ℚ) / 2 * 100) = 1250 := by
      rw [round_eq]
      norm_num
    simp only [toFixed2, h125]
    decide
  · intro inv str h
    obtain ⟨v, rfl⟩ : ∃ v, str = "R$ " ++ toFixed2 v := by
      simp only [currencyStrings, List.mem_cons, List.mem_flatMap] at h
      rcases h with h | ⟨it, hit, h⟩
      · exact ⟨inv.total, h⟩
      · rcases h with h | h | h
        · exact ⟨it.valor_unitario, h⟩
        · exact ⟨it.valor_total, h⟩
        · cases h
    obtain ⟨ip, dd, hv, hlen, hdig⟩ := toFixed2_two_decimals v
    exact ⟨ip, dd, by simp [hv, String.append_assoc], hlen, hdig⟩

/-- C8 witness: the grand-total currency string of a concrete invoice with
total 19.9 splits as required. -/
theorem currency_two_decimals_witness :
    ∃ ip dd : String,
      ("R$ " ++ toFixed2 (Invoice.total
          { loja := "Mercado X", cnpj := "00.000.000/0001-00",
            data_emissao := "2024-01-01", total := 199 / 10,
            itens := [{ descricao := "Arroz", quantidade := 1,
                        valor_unitario := 199 / 10, valor_total := 199 / 10 }] }))
        = "R$ " ++ ip ++ "." ++ dd
      ∧ dd.length = 2 ∧ dd.data.all Char.isDigit = true :=
  currency_two_decimals.2
    { loja := "Mercado X", cnpj := "00.000.000/0001-00",
      data_emissao := "2024-01-01", total := 199 / 10,
      itens := [{ descricao := "Arroz", quantidade := 1,
                  valor_unitario := 199 / 10, valor_total := 199 / 10 }] }
    _ (List.mem_cons_self _ _)
